import Mathlib

/-
Shallow embedding of the python-pampy module (src/src/pam.py), a ctypes
binding that authenticates a user against the PAM stack.

Modelling conventions:
- Machine strings crossing the foreign boundary are modelled as byte lists
  (List Nat).  The username, password and service arguments of
  PamAuthenticator.authenticate are modelled after the encoding step
  (pam.py lines 181-196): Python either receives bytes or encodes str
  inputs to bytes before any further work, so the model takes bytes.
- The results of the native entry points are an oracle (structure LibPam)
  supplied as a parameter: the model quantifies over every possible native
  stack, matching the simulated-native-stack framing of the spec.
- Python attribute errors are modelled explicitly: PamAuthenticator.init
  mirrors pam.py lines 94-129, binding pam_end only when the library has
  it, and -- crucially -- never assigning a libpam attribute on self.  The
  guard at pam.py line 256 evaluates self.libpam, so the model carries a
  libpam field of Option type and raises AttributeError when it is none,
  exactly as CPython does for a missing attribute.
- The conversation callback my_conv (pam.py lines 165-179) is modelled as
  a pure function from the message array to the response array plus the
  integer return, with calloc modelled as a zero-filled list and memmove
  as a length-bounded overwrite.
-/

/-- PAM message style constant, pam.py line 44. -/
def PAM_PROMPT_ECHO_OFF : Int := 1

/-- PAM message style constant, pam.py line 45. -/
def PAM_PROMPT_ECHO_ON : Int := 2

/-- PAM message style constant, pam.py line 46. -/
def PAM_ERROR_MSG : Int := 3

/-- PAM message style constant, pam.py line 47. -/
def PAM_TEXT_INFO : Int := 4

/-- PAM flag constant, pam.py line 48. -/
def PAM_REINITIALIZE_CRED : Int := 8

/-- PAM item id constant, pam.py line 50. -/
def PAM_TTY : Int := 3

/-- Oracle for the native PAM library: what each bound entry point would
return during one authenticate call, and whether the library exposes the
optional pam_end symbol (pam.py line 104). -/
structure LibPam where
  has_pam_end : Bool
  start_ret : Int
  auth_ret : Int
  acct_ret : Int
  setcred_ret : Int
  strerror : Int → String

/-- The process environment read by authenticate (pam.py lines 232-234):
the DISPLAY variable, whether fd 0 is a tty, and the tty name of fd 0. -/
structure Env where
  display : Option String
  isatty0 : Bool
  ttyname0 : String

/-- The ctty value computed at pam.py lines 232-235: DISPLAY if truthy,
else the tty name of fd 0 when fd 0 is a tty; the item is set only when
the final value is truthy (a nonempty string). -/
def cttyOf (env : Env) : Option String :=
  let d := env.display.getD ""
  let d := if d = "" then (if env.isatty0 then env.ttyname0 else "") else d
  if d = "" then none else some d

/-- The observable attribute state of a PamAuthenticator object: the code
and reason fields (class attributes, pam.py lines 91-92, overwritten by
authenticate), the optionally bound pam_end entry point (pam.py lines
104-107), and the libpam attribute, of Option type because the guard at
pam.py line 256 reads self.libpam, which the constructor never assigns. -/
structure PamAuthenticator where
  code : Int
  reason : Option String
  pam_end : Option Unit
  libpam : Option LibPam

/-- PamAuthenticator constructor, pam.py lines 94-129: code and reason
keep their class defaults, pam_end is bound iff the library has the
symbol, and no libpam attribute is ever assigned on self (the constructor
keeps libpam as a local variable), so the field is none. -/
def PamAuthenticator.init (lib : LibPam) : PamAuthenticator :=
  { code := 0
    reason := none
    pam_end := if lib.has_pam_end then some () else none
    libpam := none }

/-- One foreign (libpam) entry-point invocation made by authenticate. -/
inductive ForeignCall where
  | pam_start
  | pam_set_item
  | pam_authenticate
  | pam_acct_mgmt
  | pam_setcred
  | pam_strerror
  | pam_end
  deriving DecidableEq, Repr, BEq

/-- A Python runtime fault escaping authenticate uncaught. -/
inductive PyFault where
  | attributeError (attr : String)
  deriving DecidableEq, Repr

/-- What one authenticate call produced: either a returned boolean or an
escaping fault, the final attribute state of self, and the ordered list
of foreign libpam calls made. -/
structure AuthOutcome where
  result : Except PyFault Bool
  state : PamAuthenticator
  calls : List ForeignCall

/-- PamAuthenticator.authenticate, pam.py lines 131-259, after the
encoding step: username, password and service are the encoded byte
strings.

Control flow mirrored from the source:
- line 198: NUL check before anything foreign; on failure store code 4
  and the fixed reason and return False;
- line 209: pam_start; on nonzero store the code and the fixed pam_start
  failure reason and return False (lines 211-216);
- lines 232-238: set the TTY item when a ctty is available;
- line 240: pam_authenticate; line 243-245: pam_acct_mgmt only when the
  previous phase returned 0; lines 247-248: pam_setcred only when both
  succeeded and resetcreds is set, its code overwriting retval;
- lines 251-254: store code and the pam_strerror text;
- line 256: evaluate self.libpam inside hasattr; the attribute was never
  assigned, so CPython raises AttributeError there; were it present, the
  guard would decide whether pam_end runs before returning auth_success
  (lines 257-259). -/
def authenticate (lib : LibPam) (env : Env) (self : PamAuthenticator)
    (username password service : List Nat) (resetcreds : Bool) :
    AuthOutcome :=
  if 0 ∈ username ∨ 0 ∈ password ∨ 0 ∈ service then
    { result := .ok false
      state := { self with
                  code := 4
                  reason := some "strings may not contain NUL" }
      calls := [] }
  else
    let retval := lib.start_ret
    if retval ≠ 0 then
      { result := .ok false
        state := { self with
                    code := retval
                    reason := some "pam_start() failed" }
        calls := [.pam_start] }
    else
      let ttyCalls : List ForeignCall :=
        match cttyOf env with
        | some _ => [.pam_set_item]
        | none => []
      let retval := lib.auth_ret
      let auth_success := retval == 0
      let step2 : Int × List ForeignCall × Bool :=
        if auth_success then
          (lib.acct_ret, [.pam_acct_mgmt], lib.acct_ret == 0)
        else
          (retval, [], auth_success)
      let retval := step2.1
      let acctCalls := step2.2.1
      let auth_success := step2.2.2
      let step3 : Int × List ForeignCall :=
        if auth_success && resetcreds then
          (lib.setcred_ret, [.pam_setcred])
        else
          (retval, [])
      let retval := step3.1
      let credCalls := step3.2
      let state := { self with
                      code := retval
                      reason := some (lib.strerror retval) }
      let calls := [ForeignCall.pam_start] ++ ttyCalls
        ++ [ForeignCall.pam_authenticate] ++ acctCalls ++ credCalls
        ++ [ForeignCall.pam_strerror]
      match self.libpam with
      | none =>
        { result := .error (.attributeError "libpam"), state := state
          calls := calls }
      | some l =>
        if l.has_pam_end then
          match self.pam_end with
          | some _ =>
            { result := .ok auth_success, state := state
              calls := calls ++ [.pam_end] }
          | none =>
            { result := .error (.attributeError "pam_end"), state := state
              calls := calls }
        else
          { result := .ok auth_success, state := state, calls := calls }

/-- One entry of the message array handed to the conversation callback,
pam.py lines 65-70. -/
structure PamMessage where
  msg_style : Int
  msg : String

/-- One entry of the response array the callback fills, pam.py lines
73-78: resp is an optionally NULL buffer pointer, modelled as the byte
content of the allocation, and resp_retcode the per-entry status. -/
structure PamResponse where
  resp : Option (List Nat)
  resp_retcode : Int
  deriving DecidableEq, Repr

/-- The calloc at pam.py line 175: a zero-initialized allocation of
len(password)+1 bytes. -/
def allocResponseBuffer (password : List Nat) : List Nat :=
  List.replicate (password.length + 1) 0

/-- The memmove at pam.py line 176: copy len(password) bytes of the
password into the front of the destination buffer, leaving the rest of
the allocation untouched. -/
def memmovePassword (password : List Nat) (dst : List Nat) : List Nat :=
  password ++ dst.drop password.length

/-- Reading a buffer as a NUL-terminated C string: the bytes before the
first NUL. -/
def cstr (buf : List Nat) : List Nat :=
  buf.takeWhile (fun b => b != 0)

/-- The response slot produced for one message by the loop body at pam.py
lines 173-178: an echo-off message gets a freshly allocated buffer holding
the password bytes and retcode 0; any other message keeps the
zero-initialized slot, a NULL resp with retcode 0. -/
def convResponse (password : List Nat) (m : PamMessage) : PamResponse :=
  if m.msg_style = PAM_PROMPT_ECHO_OFF then
    { resp := some (memmovePassword password (allocResponseBuffer password))
      resp_retcode := 0 }
  else
    { resp := none, resp_retcode := 0 }

/-- The conversation callback my_conv, pam.py lines 165-179: allocate
n_messages response slots with the zeroing allocator (line 170), so every
slot starts as a NULL resp with retcode 0; fill the echo-off slots
(lines 173-178); return 0 (line 179). -/
def my_conv (password : List Nat) (messages : List PamMessage) :
    List PamResponse × Int :=
  (messages.map (convResponse password), 0)

/-- A native stack in which every phase succeeds and pam_end exists. -/
def allOkLib : LibPam :=
  { has_pam_end := true
    start_ret := 0
    auth_ret := 0
    acct_ret := 0
    setcred_ret := 0
    strerror := fun c => if c = 0 then "Success" else "Error" }

/-- A native stack whose authenticate phase fails with code 7. -/
def authFailLib : LibPam :=
  { allOkLib with auth_ret := 7 }

/-- A native stack in which start, authenticate and account management
succeed but credential reset returns 6. -/
def resetFailLib : LibPam :=
  { allOkLib with
     setcred_ret := 6
     strerror := fun c => if c = 0 then "Success" else "Permission denied" }

/-- An environment with no DISPLAY and no tty on fd 0. -/
def noTTYEnv : Env :=
  { display := none, isatty0 := false, ttyname0 := "" }

/-- The concrete password used by the conversation-callback witness. -/
def wpw : List Nat := [112, 119]

/-- The concrete mixed-style message array used by the
conversation-callback witness: one echo-on prompt, one echo-off prompt,
one error message, one text info, and a second echo-off prompt. -/
def wmsgs : List PamMessage :=
  [⟨PAM_PROMPT_ECHO_ON, "login:"⟩,
   ⟨PAM_PROMPT_ECHO_OFF, "Password:"⟩,
   ⟨PAM_ERROR_MSG, "error"⟩,
   ⟨PAM_TEXT_INFO, "info"⟩,
   ⟨PAM_PROMPT_ECHO_OFF, "Token:"⟩]

/-- Helper: the response buffer built for an echo-off prompt is exactly
the password bytes followed by a single NUL. -/
theorem memmove_alloc_eq (password : List Nat) :
    memmovePassword password (allocResponseBuffer password)
      = password ++ [0] := by
  unfold memmovePassword allocResponseBuffer
  have h : (List.replicate (password.length + 1) 0).drop password.length
      = List.replicate 1 (0 : Nat) := by
    rw [List.drop_replicate]
    congr 1
    omega
  rw [h]
  rfl

/-- Helper: reading the password buffer back as a C string recovers the
password when the password itself has no NUL byte. -/
theorem cstr_password (password : List Nat) (hp : (0 : Nat) ∉ password) :
    cstr (password ++ [0]) = password := by
  induction password with
  | nil => rfl
  | cons b bs ih =>
    have hb : (b != 0) = true := by
      simp only [bne_iff_ne, ne_eq]
      intro h
      exact hp (h ▸ List.mem_cons_self b bs)
    have hbs : (0 : Nat) ∉ bs := fun h => hp (List.mem_cons_of_mem b h)
    simp only [cstr, List.cons_append, List.takeWhile_cons, hb, if_true,
      List.cons.injEq, true_and]
    exact ih hbs

/-- C1: the claim states that pam_end (or its no-op substitute) is
invoked exactly once on every branch before authenticate returns.  The
code refutes it: with a native stack in which every phase returns 0 and
pam_end exists, the call makes no pam_end invocation at all and ends in
an uncaught AttributeError, because the guard at pam.py line 256 reads
self.libpam, an attribute the constructor never assigns.  (On the
start-failure branch the code also returns at line 216 with no session
end call.) -/
theorem pam_end_never_invoked :
    (authenticate allOkLib noTTYEnv (PamAuthenticator.init allOkLib)
        [97] [98] [108] true).calls.count ForeignCall.pam_end = 0 ∧
    (authenticate allOkLib noTTYEnv (PamAuthenticator.init allOkLib)
        [97] [98] [108] true).result
      = .error (.attributeError "libpam") ∧
    (authenticate allOkLib noTTYEnv (PamAuthenticator.init allOkLib)
        [109] [110] [108] false).calls.count ForeignCall.pam_end = 0 ∧
    (authenticate { allOkLib with start_ret := 26 } noTTYEnv
        (PamAuthenticator.init allOkLib)
        [97] [98] [108] true).calls.count ForeignCall.pam_end = 0 :=
  ⟨rfl, rfl, rfl, rfl⟩

/-- C2: the claim states that authenticate never terminates by an
uncontrolled fault.  The code refutes it: on every input that passes the
NUL check and for which pam_start returns 0 (the ordinary success path),
evaluating self.libpam at pam.py line 256 raises an AttributeError that
escapes authenticate uncaught. -/
theorem authenticate_raises_uncaught :
    (authenticate allOkLib noTTYEnv (PamAuthenticator.init allOkLib)
        [117] [113] [115] true).result
      = .error (.attributeError "libpam") :=
  rfl

/-- C3: whenever the encoded username, password or service contains a NUL
byte, authenticate returns False having stored code 4 and the fixed
reason string, and makes no foreign call at all. -/
theorem nul_input_rejected_locally (lib : LibPam) (env : Env)
    (self : PamAuthenticator) (username password service : List Nat)
    (resetcreds : Bool)
    (h : 0 ∈ username ∨ 0 ∈ password ∨ 0 ∈ service) :
    (authenticate lib env self username password service resetcreds).result
      = .ok false ∧
    (authenticate lib env self username password service resetcreds).state.code
      = 4 ∧
    (authenticate lib env self username password service resetcreds).state.reason
      = some "strings may not contain NUL" ∧
    (authenticate lib env self username password service resetcreds).calls
      = [] := by
  unfold authenticate
  rw [if_pos h]
  exact ⟨rfl, rfl, rfl, rfl⟩

/-- C3 witness: a concrete username with an embedded NUL byte. -/
theorem nul_input_rejected_locally_witness :
    ((0 : Nat) ∈ [0, 97] ∨ (0 : Nat) ∈ [98] ∨ (0 : Nat) ∈ [108]) ∧
    ((authenticate allOkLib noTTYEnv (PamAuthenticator.init allOkLib)
        [0, 97] [98] [108] true).result = .ok false ∧
     (authenticate allOkLib noTTYEnv (PamAuthenticator.init allOkLib)
        [0, 97] [98] [108] true).state.code = 4 ∧
     (authenticate allOkLib noTTYEnv (PamAuthenticator.init allOkLib)
        [0, 97] [98] [108] true).state.reason
       = some "strings may not contain NUL" ∧
     (authenticate allOkLib noTTYEnv (PamAuthenticator.init allOkLib)
        [0, 97] [98] [108] true).calls = []) :=
  ⟨Or.inl (by decide),
   nul_input_rejected_locally allOkLib noTTYEnv
     (PamAuthenticator.init allOkLib) [0, 97] [98] [108] true
     (Or.inl (by decide))⟩

/-- C4: the claim states that when authenticate and account management
return 0 and resetcreds is set, the credential-reset code overwrites the
stored code and reason while the call still returns success=true.  The
code half-holds and half-fails: with a stack in which setcred returns 6,
pam_setcred is invoked and the stored code and reason are overwritten
with the reset failure (pam.py lines 247-252), but the call then raises
AttributeError at line 256 instead of returning True. -/
theorem reset_overwrites_code_but_raises :
    (authenticate resetFailLib noTTYEnv (PamAuthenticator.init resetFailLib)
        [97] [98] [108] true).calls
      = [.pam_start, .pam_authenticate, .pam_acct_mgmt, .pam_setcred,
         .pam_strerror] ∧
    (authenticate resetFailLib noTTYEnv (PamAuthenticator.init resetFailLib)
        [97] [98] [108] true).state.code = 6 ∧
    (authenticate resetFailLib noTTYEnv (PamAuthenticator.init resetFailLib)
        [97] [98] [108] true).state.reason = some "Permission denied" ∧
    (authenticate resetFailLib noTTYEnv (PamAuthenticator.init resetFailLib)
        [97] [98] [108] true).result = .error (.attributeError "libpam") :=
  ⟨rfl, rfl, rfl, rfl⟩

/-- C5: the claim states that authenticate returns a result triple for
every input.  The code refutes it: on any input whose pam_start succeeds,
the call raises an uncaught AttributeError at pam.py line 256 and returns
nothing at all. -/
theorem no_triple_returned_on_success_path :
    (authenticate allOkLib noTTYEnv (PamAuthenticator.init allOkLib)
        [117, 49] [112, 49] [108] false).result
      = .error (.attributeError "libpam") :=
  rfl

/-- C6: the claim states that when the native authenticate phase returns
nonzero, the call returns success=false and account management is never
invoked.  The phase skip holds in the code, but the call raises an
AttributeError at pam.py line 256 instead of returning False: with a
stack in which pam_authenticate returns 7, the foreign-call trace is
exactly start, authenticate, strerror with no pam_acct_mgmt, the stored
code is 7, and the result is the uncaught fault. -/
theorem auth_fail_skips_acct_but_raises :
    (authenticate authFailLib noTTYEnv (PamAuthenticator.init authFailLib)
        [97] [98] [108] true).calls
      = [.pam_start, .pam_authenticate, .pam_strerror] ∧
    (authenticate authFailLib noTTYEnv (PamAuthenticator.init authFailLib)
        [97] [98] [108] true).calls.count ForeignCall.pam_acct_mgmt = 0 ∧
    (authenticate authFailLib noTTYEnv (PamAuthenticator.init authFailLib)
        [97] [98] [108] true).state.code = 7 ∧
    (authenticate authFailLib noTTYEnv (PamAuthenticator.init authFailLib)
        [97] [98] [108] true).result = .error (.attributeError "libpam") :=
  ⟨rfl, rfl, rfl, rfl⟩

/-- C7: the claim states that when every native phase returns 0 the call
returns success=true with code=0.  The code refutes it: with the all-zero
stack the stored code is 0 and the stored reason is the success string,
but authenticate raises an uncaught AttributeError at pam.py line 256
instead of returning True. -/
theorem all_phases_ok_still_raises :
    (authenticate allOkLib noTTYEnv (PamAuthenticator.init allOkLib)
        [99] [100] [108] true).state.code = 0 ∧
    (authenticate allOkLib noTTYEnv (PamAuthenticator.init allOkLib)
        [99] [100] [108] true).state.reason = some "Success" ∧
    (authenticate allOkLib noTTYEnv (PamAuthenticator.init allOkLib)
        [99] [100] [108] true).result = .error (.attributeError "libpam") :=
  ⟨rfl, rfl, rfl⟩

/-- C8: for any message array of mixed styles and any NUL-free password,
the conversation callback returns 0 and produces exactly one response
slot per message; every echo-off slot has retcode 0 and a buffer whose
content is the password bytes followed by a NUL, so that reading it as a
C string yields exactly the password; every other slot is a NULL resp
with retcode 0. -/
theorem my_conv_contract (password : List Nat) (messages : List PamMessage)
    (hp : (0 : Nat) ∉ password) :
    (my_conv password messages).2 = 0 ∧
    (my_conv password messages).1.length = messages.length ∧
    ∀ i : Nat, ∀ m ∈ messages[i]?, ∀ r ∈ (my_conv password messages).1[i]?,
      (m.msg_style = PAM_PROMPT_ECHO_OFF →
        r.resp_retcode = 0 ∧
        ∃ buf, r.resp = some buf ∧ buf = password ++ [0] ∧
          cstr buf = password) ∧
      (m.msg_style ≠ PAM_PROMPT_ECHO_OFF →
        r.resp = none ∧ r.resp_retcode = 0) := by
  refine ⟨rfl, by simp [my_conv], ?_⟩
  intro i m hm r hr
  rw [Option.mem_def] at hm hr
  rw [my_conv] at hr
  simp only [List.getElem?_map, hm, Option.map_some] at hr
  cases hr
  constructor
  · intro hstyle
    refine ⟨by simp [convResponse, hstyle], ?_⟩
    refine ⟨memmovePassword password (allocResponseBuffer password),
      by simp [convResponse, hstyle], memmove_alloc_eq password, ?_⟩
    rw [memmove_alloc_eq]
    exact cstr_password password hp
  · intro hstyle
    exact ⟨by simp [convResponse, hstyle], by simp [convResponse, hstyle]⟩

/-- C8 witness: the conversation-callback contract at the concrete
five-message mixed-style array wmsgs and the concrete NUL-free password
wpw. -/
theorem my_conv_contract_witness :
    ((0 : Nat) ∉ wpw) ∧
    ((my_conv wpw wmsgs).2 = 0 ∧
     (my_conv wpw wmsgs).1.length = wmsgs.length ∧
     ∀ i : Nat, ∀ m ∈ wmsgs[i]?, ∀ r ∈ (my_conv wpw wmsgs).1[i]?,
       (m.msg_style = PAM_PROMPT_ECHO_OFF →
         r.resp_retcode = 0 ∧
         ∃ buf, r.resp = some buf ∧ buf = wpw ++ [0] ∧
           cstr buf = wpw) ∧
       (m.msg_style ≠ PAM_PROMPT_ECHO_OFF →
         r.resp = none ∧ r.resp_retcode = 0)) :=
  ⟨by decide, my_conv_contract wpw wmsgs (by decide)⟩

/-- C9 counterexample: the claim states that no authenticator-object
state observable after the call is changed by the call.  A fresh
authenticator has code 0 and reason None, yet after one authenticate
call with a NUL-bearing username -- a call that returns normally -- the
object carries code 4 and the fixed reason string. -/
theorem authenticate_mutates_self_state :
    (PamAuthenticator.init allOkLib).code = 0 ∧
    (PamAuthenticator.init allOkLib).reason = none ∧
    (authenticate allOkLib noTTYEnv (PamAuthenticator.init allOkLib)
        [0, 98] [101] [108] true).result = .ok false ∧
    (authenticate allOkLib noTTYEnv (PamAuthenticator.init allOkLib)
        [0, 98] [101] [108] true).state.code = 4 ∧
    (authenticate allOkLib noTTYEnv (PamAuthenticator.init allOkLib)
        [0, 98] [101] [108] true).state.reason
      = some "strings may not contain NUL" :=
  ⟨rfl, rfl, rfl, rfl, rfl⟩

/-- C9 (amended): an authenticate call does persist state on the
authenticator object: it stores the final code and reason on self (pam.py
lines 199-200, 214-215, 251-254), and that is all it changes there --
every other attribute of the object is left intact, and no session handle
survives the call. -/
theorem authenticate_frame (lib : LibPam) (env : Env)
    (self : PamAuthenticator) (username password service : List Nat)
    (resetcreds : Bool) :
    ∃ c r, (authenticate lib env self username password service
        resetcreds).state = { self with code := c, reason := r } := by
  obtain ⟨c0, r0, pe, lp⟩ := self
  unfold authenticate
  by_cases h1 : 0 ∈ username ∨ 0 ∈ password ∨ 0 ∈ service
  · rw [if_pos h1]
    exact ⟨_, _, rfl⟩
  · rw [if_neg h1]
    by_cases h2 : lib.start_ret ≠ 0
    · rw [if_pos h2]
      exact ⟨_, _, rfl⟩
    · rw [if_neg h2]
      cases lp with
      | none => exact ⟨_, _, rfl⟩
      | some l =>
        obtain ⟨hpe, s0, a0, ac0, sc0, se0⟩ := l
        cases hpe with
        | false => exact ⟨_, _, rfl⟩
        | true =>
          cases pe with
          | none => exact ⟨_, _, rfl⟩
          | some u => exact ⟨_, _, rfl⟩

/-- C10: for every password, the echo-off response buffer is allocated
as len(password)+1 zero bytes by the zeroing allocator, the copy writes
only len(password) bytes -- within the allocation, preserving its length
-- and the resulting buffer ends in a NUL byte. -/
theorem echo_off_buffer_safety (password : List Nat) :
    (allocResponseBuffer password).length = password.length + 1 ∧
    (∀ b ∈ allocResponseBuffer password, b = 0) ∧
    password.length ≤ (allocResponseBuffer password).length ∧
    (memmovePassword password (allocResponseBuffer password)).length
      = (allocResponseBuffer password).length ∧
    (memmovePassword password (allocResponseBuffer password)).getLast?
      = some 0 := by
  refine ⟨by simp [allocResponseBuffer], ?_,
    by simp [allocResponseBuffer], ?_, ?_⟩
  · intro b hb
    exact List.eq_of_mem_replicate hb
  · rw [memmove_alloc_eq]
    simp [allocResponseBuffer]
  · rw [memmove_alloc_eq]
    simp
